import Mathlib

/-!
Verification of `translate_wav.py`: a CLI utility that streams a WAV file
through a cloud speech-translation session, collects finalized translation
segments via event callbacks, and optionally writes them to a text file.

The embedding below models the script as pure functions:
  - SDK results and events become inductive types;
  - the event handlers (`handle_recognized`, `handle_canceled`,
    `handle_session_stopped`) become state transformers on `CollectorState`;
  - `translate_wav` becomes a function of the environment, an `isfile`
    predicate, the arguments, and the stream of events the SDK would deliver,
    returning `Except TranslateError RunResult`;
  - file output is modelled by an association-list filesystem with
    overwrite-on-write semantics (Python open mode "w");
  - the module entry guard (`if name == "main":`) is modelled by a lookup of
    the identifier in the set of names bound at module top level.
-/

namespace TranslateWav

/-- The empty string, named so it can be passed as an argument. -/
def emptyStr : String := ""

/-- A newline, named so it can be passed as an argument. -/
def newlineStr : String := "\n"

/-- Result reasons of the speech SDK used by `handle_recognized`
(`TranslatedSpeech`, `RecognizedSpeech`, `NoMatch`). -/
inductive ResultReason
  | translatedSpeech
  | recognizedSpeech
  | noMatch
deriving DecidableEq, Repr

/-- Cancellation reasons of the speech SDK (`Error` or a normal end). -/
inductive CancellationReason
  | error
  | endOfStream
deriving DecidableEq, Repr

/-- Display string of a cancellation reason, as Python prints `evt.reason`. -/
def CancellationReason.display : CancellationReason → String
  | .error => "CancellationReason.Error"
  | .endOfStream => "CancellationReason.EndOfStream"

/-- A finalized recognition result: `evt.result` with its `reason`, optional
source `text`, and the `translations` dict keyed by target language code. -/
structure RecResult where
  reason : ResultReason
  text : Option String
  translations : List (String × String)
deriving DecidableEq, Repr

/-- Python `dict.get(k, default)` on the translations mapping. -/
def translationsGet (ts : List (String × String)) (k : String) (dflt : String) : String :=
  match ts.lookup k with
  | some v => v
  | none => dflt

/-- Events delivered by the SDK to the four registered handlers. -/
inductive Event
  | recognizing
  | recognized (r : RecResult)
  | canceled (reason : CancellationReason) (error_details : String)
  | sessionStopped
deriving DecidableEq, Repr

/-- The collector state owned by `translate_wav`: the two accumulator lists,
the completion flag `done`, and the console lines printed by the handlers. -/
structure CollectorState where
  translated_lines : List String
  recognized_lines : List String
  done : Bool
  output : List String
deriving DecidableEq, Repr

/-- The initial collector state (`translated_lines = []`,
`recognized_lines = []`, `done = False`). -/
def initialState : CollectorState :=
  { translated_lines := [], recognized_lines := [], done := false, output := [] }

/-- Console line `[SRC] {src_text}`. -/
def srcLine (t : String) : String := "[SRC] " ++ t

/-- Console line `[{target_language.upper()}] {tgt_text}\n`. -/
def tgtLine (L t : String) : String := "[" ++ L.toUpper ++ "] " ++ t ++ newlineStr

/-- Console line `[SRC only] {result.text}\n`. -/
def srcOnlyLine (t : String) : String := "[SRC only] " ++ t ++ newlineStr

/-- Console line `Canceled: {evt.reason}`. -/
def canceledLine (reason : CancellationReason) : String :=
  "Canceled: " ++ reason.display

/-- Console line `Error details: {evt.error_details}`. -/
def errorDetailsLine (d : String) : String := "Error details: " ++ d

/-- Embedding of `handle_recognized` (translate_wav.py lines 73-90): on a
`TranslatedSpeech` result with a non-empty translation for the target
language, append source and translation to the accumulators and print both;
on `RecognizedSpeech` with non-empty text, print a diagnostic only; on
`NoMatch`, do nothing. -/
def handle_recognized (target_language : String) (result : RecResult)
    (s : CollectorState) : CollectorState :=
  if result.reason = ResultReason.translatedSpeech then
    let src_text := result.text.getD emptyStr
    let tgt_text := translationsGet result.translations target_language emptyStr
    if tgt_text ≠ emptyStr then
      { s with
        recognized_lines := s.recognized_lines ++ [src_text]
        translated_lines := s.translated_lines ++ [tgt_text]
        output := s.output ++ [srcLine src_text, tgtLine target_language tgt_text] }
    else s
  else if result.reason = ResultReason.recognizedSpeech then
    if result.text.getD emptyStr ≠ emptyStr then
      { s with output := s.output ++ [srcOnlyLine (result.text.getD emptyStr)] }
    else s
  else s

/-- Embedding of `handle_canceled` (lines 92-97): print the cancellation
reason, print error details when the reason is `Error`, and set `done`. -/
def handle_canceled (reason : CancellationReason) (error_details : String)
    (s : CollectorState) : CollectorState :=
  let s1 := { s with output := s.output ++ [canceledLine reason] }
  let s2 :=
    if reason = CancellationReason.error then
      { s1 with output := s1.output ++ [errorDetailsLine error_details] }
    else s1
  { s2 with done := true }

/-- Embedding of `handle_session_stopped` (lines 99-101): set `done`. -/
def handle_session_stopped (s : CollectorState) : CollectorState :=
  { s with done := true }

/-- Dispatch of one SDK event to the handler connected to it
(lines 103-106); `handle_recognizing` is a no-op (lines 69-71). -/
def handleEvent (target_language : String) (s : CollectorState) (e : Event) :
    CollectorState :=
  match e with
  | Event.recognizing => s
  | Event.recognized r => handle_recognized target_language r s
  | Event.canceled reason d => handle_canceled reason d s
  | Event.sessionStopped => handle_session_stopped s

/-- The collector run over a whole event stream, in delivery order. -/
def runEvents (target_language : String) (events : List Event)
    (s : CollectorState) : CollectorState :=
  events.foldl (handleEvent target_language) s

/-- Python truthiness of an optional string (`if x:`): false for `None` and
for the empty string. -/
def truthy : Option String → Bool
  | none => false
  | some s => s ≠ emptyStr

/-- The fixed auto-detect candidate source-language list (lines 41-43). -/
def default_auto_langs : List String :=
  ["en-US", "hi-IN", "mr-IN", "gu-IN", "ta-IN", "te-IN", "bn-IN"]

/-- The `SpeechTranslationConfig` fields that `translate_wav` sets. -/
structure SpeechTranslationConfig where
  subscription : String
  region : String
  speech_recognition_language : Option String
  target_languages : List String
deriving DecidableEq, Repr

/-- The process environment: the two credential variables read by
`translate_wav` (lines 21-22). -/
structure Env where
  azure_speech_key : Option String
  azure_speech_region : Option String

/-- Errors that `translate_wav` raises before the session starts. -/
inductive TranslateError
  | runtimeError (msg : String)
  | fileNotFoundError (msg : String)
deriving DecidableEq, Repr

/-- The message of the credentials `RuntimeError` (line 24). -/
def credsMessage : String :=
  "Please set AZURE_SPEECH_KEY and AZURE_SPEECH_REGION environment variables."

/-- Name of the key environment variable. -/
def keyName : String := "AZURE_SPEECH_KEY"

/-- Name of the region environment variable. -/
def regionName : String := "AZURE_SPEECH_REGION"

/-- The message of the `FileNotFoundError` (line 27). -/
def wavNotFoundMessage (p : String) : String := "WAV file not found: " ++ p

/-- Everything a successful run of `translate_wav` produces: the session
configuration it built, the auto-detect config when used, the audio source,
the final collector state, and the file write performed (path and content),
if any. The function itself returns `(translated_lines, recognized_lines)`,
both fields of `collector`. -/
structure RunResult where
  config : SpeechTranslationConfig
  auto_langs : Option (List String)
  audio_filename : String
  collector : CollectorState
  written : Option (String × String)
deriving DecidableEq, Repr

/-- Embedding of `translate_wav` (lines 7-121). `env` gives the two
environment variables, `isfile` is `os.path.isfile`, and `events` is the
stream the SDK delivers between `start_continuous_recognition` and the
terminal callback. Control flow mirrors the source: credential check, file
check, configuration, event collection, optional file write. -/
def translate_wav (env : Env) (isfile : String → Bool)
    (wav_path : String) (target_language : String)
    (source_language : Option String) (output_txt : Option String)
    (events : List Event) : Except TranslateError RunResult :=
  let speech_key := env.azure_speech_key
  let speech_region := env.azure_speech_region
  if !truthy speech_key || !truthy speech_region then
    Except.error (TranslateError.runtimeError credsMessage)
  else if !isfile wav_path then
    Except.error (TranslateError.fileNotFoundError (wavNotFoundMessage wav_path))
  else
    let translation_config : SpeechTranslationConfig :=
      { subscription := speech_key.getD emptyStr
        region := speech_region.getD emptyStr
        speech_recognition_language :=
          if truthy source_language then source_language else none
        target_languages := [] }
    let auto_langs : Option (List String) :=
      if truthy source_language then none else some default_auto_langs
    let translation_config :=
      { translation_config with
        target_languages := translation_config.target_languages ++ [target_language] }
    let finalState := runEvents target_language events initialState
    let written : Option (String × String) :=
      if truthy output_txt then
        some (output_txt.getD emptyStr,
              String.intercalate newlineStr finalState.translated_lines)
      else none
    Except.ok
      { config := translation_config
        auto_langs := auto_langs
        audio_filename := wav_path
        collector := finalState
        written := written }

/-- A flat filesystem: an association list from path to content. -/
def FS := List (String × String)

/-- Writing with Python open mode "w": create or truncate, i.e. replace any
existing entry for the path. -/
def writeFileW (fs : FS) (path content : String) : FS :=
  (path, content) :: List.filter (fun pc => pc.1 ≠ path) fs

/-- Reading a file back from the modelled filesystem. -/
def readFS (fs : FS) (path : String) : Option String :=
  List.lookup path fs

/-- Apply the write recorded in a `RunResult` (if any) to a filesystem. -/
def applyWritten (w : Option (String × String)) (fs : FS) : FS :=
  match w with
  | some pc => writeFileW fs pc.1 pc.2
  | none => fs

/-- The identifier tested by the entry guard on line 138 of the source:
`if name == "main":`. -/
def guardIdent : String := "name"

/-- The names bound in the module namespace of translate_wav.py at the time
the line-138 guard executes: the five imports (lines 1-5), the two function
definitions, and the implicit module attributes Python always binds. -/
def moduleTopLevelNames : List String :=
  ["os", "sys", "argparse", "speechsdk", "datetime",
   "translate_wav", "main",
   "__name__", "__file__", "__doc__", "__builtins__", "__package__",
   "__loader__", "__spec__"]

/-- Outcome of executing the module entry guard: either evaluating the
tested identifier raises `NameError`, or the guard reaches the comparison
against `"main"` (only then could `main()` run). -/
inductive GuardOutcome
  | nameError (ident : String)
  | reachedComparison
deriving DecidableEq, Repr

/-- Executing `if name == "main": main()` under Python name resolution:
evaluating the identifier `name` raises `NameError` unless it is bound in
the module (or builtin) namespace; only when it is bound does execution
reach the string comparison that could call `main()`. -/
def runModuleGuard : GuardOutcome :=
  if moduleTopLevelNames.contains guardIdent then
    GuardOutcome.reachedComparison
  else
    GuardOutcome.nameError guardIdent

/-- `main()` can only be invoked if the guard reaches the comparison. -/
def mainReachable : Bool :=
  runModuleGuard == GuardOutcome.reachedComparison

/-! ## Derived definitions used by the specifications -/

/-- The translation a result carries for target language `L`
(`result.translations.get(L, "")`). -/
def tgtOf (L : String) (r : RecResult) : String :=
  translationsGet r.translations L emptyStr

/-- The source text of a result (`result.text or ""`). -/
def srcOf (r : RecResult) : String := r.text.getD emptyStr

/-- Whether a finalized result takes the appending branch of
`handle_recognized`: `TranslatedSpeech` with a non-empty translation for
the target language. -/
def appendsFor (L : String) (r : RecResult) : Bool :=
  decide (r.reason = ResultReason.translatedSpeech ∧ tgtOf L r ≠ emptyStr)

/-- The results of an event stream that take the appending branch, in
delivery order. -/
def segmentsFor (L : String) (events : List Event) : List RecResult :=
  events.filterMap fun e =>
    match e with
    | Event.recognized r => if appendsFor L r then some r else none
    | _ => none

/-- Whether an event is terminal, i.e. its handler sets the completion
flag (cancellation or session-stopped). -/
def isTerminal : Event → Bool
  | Event.canceled _ _ => true
  | Event.sessionStopped => true
  | _ => false

/-- The `RunResult` that `translate_wav` produces once both validation
checks pass. -/
def okResult (env : Env) (wav L : String) (src out : Option String)
    (events : List Event) : RunResult :=
  { config :=
      { subscription := env.azure_speech_key.getD emptyStr
        region := env.azure_speech_region.getD emptyStr
        speech_recognition_language := if truthy src then src else none
        target_languages := [L] }
    auto_langs := if truthy src then none else some default_auto_langs
    audio_filename := wav
    collector := runEvents L events initialState
    written :=
      if truthy out then
        some (out.getD emptyStr,
              String.intercalate newlineStr
                (runEvents L events initialState).translated_lines)
      else none }

/-! ## Helper lemmas -/

theorem handle_recognized_eq (L : String) (r : RecResult) (s : CollectorState) :
    handle_recognized L r s =
      if appendsFor L r = true then
        { s with
          recognized_lines := s.recognized_lines ++ [srcOf r]
          translated_lines := s.translated_lines ++ [tgtOf L r]
          output := s.output ++ [srcLine (srcOf r), tgtLine L (tgtOf L r)] }
      else if r.reason = ResultReason.recognizedSpeech ∧ srcOf r ≠ emptyStr then
        { s with output := s.output ++ [srcOnlyLine (srcOf r)] }
      else s := by
  unfold handle_recognized appendsFor srcOf tgtOf
  by_cases h1 : r.reason = ResultReason.translatedSpeech
  · by_cases h2 : translationsGet r.translations L emptyStr = emptyStr
    · simp [h1, h2]
    · simp [h1, h2]
  · by_cases h3 : r.reason = ResultReason.recognizedSpeech
    · by_cases h4 : r.text.getD emptyStr = emptyStr <;> simp [h1, h3, h4]
    · simp [h1, h3]

theorem handle_recognized_translated (L : String) (r : RecResult) (s : CollectorState) :
    (handle_recognized L r s).translated_lines =
      if appendsFor L r = true then s.translated_lines ++ [tgtOf L r]
      else s.translated_lines := by
  rw [handle_recognized_eq]
  by_cases h : appendsFor L r = true
  · simp [h]
  · rw [if_neg h, if_neg h]
    split <;> rfl

theorem handle_recognized_recognized_lines (L : String) (r : RecResult) (s : CollectorState) :
    (handle_recognized L r s).recognized_lines =
      if appendsFor L r = true then s.recognized_lines ++ [srcOf r]
      else s.recognized_lines := by
  rw [handle_recognized_eq]
  by_cases h : appendsFor L r = true
  · simp [h]
  · rw [if_neg h, if_neg h]
    split <;> rfl

theorem handle_recognized_done (L : String) (r : RecResult) (s : CollectorState) :
    (handle_recognized L r s).done = s.done := by
  rw [handle_recognized_eq]
  split
  · rfl
  · split <;> rfl

theorem handle_canceled_fields (reason : CancellationReason) (d : String)
    (s : CollectorState) :
    (handle_canceled reason d s).translated_lines = s.translated_lines
    ∧ (handle_canceled reason d s).recognized_lines = s.recognized_lines
    ∧ (handle_canceled reason d s).done = true
    ∧ (handle_canceled reason d s).output
        = s.output ++ [canceledLine reason]
          ++ (if reason = CancellationReason.error then [errorDetailsLine d] else []) := by
  cases reason <;> simp [handle_canceled]

theorem runEvents_nil (L : String) (s : CollectorState) :
    runEvents L [] s = s := rfl

theorem runEvents_cons (L : String) (e : Event) (es : List Event) (s : CollectorState) :
    runEvents L (e :: es) s = runEvents L es (handleEvent L s e) := rfl

theorem runEvents_append (L : String) (es1 es2 : List Event) (s : CollectorState) :
    runEvents L (es1 ++ es2) s = runEvents L es2 (runEvents L es1 s) := by
  simp [runEvents, List.foldl_append]

theorem segmentsFor_nil (L : String) : segmentsFor L [] = [] := rfl

theorem segmentsFor_cons (L : String) (e : Event) (es : List Event) :
    segmentsFor L (e :: es) =
      (match e with
        | Event.recognized r => if appendsFor L r then some r else none
        | _ => none).toList ++ segmentsFor L es := by
  cases e with
  | recognized r =>
    by_cases h : appendsFor L r = true <;>
      simp [segmentsFor, List.filterMap_cons, h]
  | recognizing => simp [segmentsFor, List.filterMap_cons]
  | canceled reason d => simp [segmentsFor, List.filterMap_cons]
  | sessionStopped => simp [segmentsFor, List.filterMap_cons]

theorem runEvents_lines (L : String) (events : List Event) (s : CollectorState) :
    (runEvents L events s).translated_lines
        = s.translated_lines ++ (segmentsFor L events).map (tgtOf L)
    ∧ (runEvents L events s).recognized_lines
        = s.recognized_lines ++ (segmentsFor L events).map srcOf := by
  induction events generalizing s with
  | nil => simp [runEvents, segmentsFor]
  | cons e es ih =>
    rw [runEvents_cons]
    rcases ih (handleEvent L s e) with ⟨iht, ihr⟩
    rw [segmentsFor_cons]
    cases e with
    | recognizing => simpa [handleEvent] using ⟨iht, ihr⟩
    | recognized r =>
      refine ⟨?_, ?_⟩
      · rw [iht]
        show (handle_recognized L r s).translated_lines ++ _ = _
        rw [handle_recognized_translated]
        by_cases h : appendsFor L r = true <;> simp [h]
      · rw [ihr]
        show (handle_recognized L r s).recognized_lines ++ _ = _
        rw [handle_recognized_recognized_lines]
        by_cases h : appendsFor L r = true <;> simp [h]
    | canceled reason d =>
      refine ⟨?_, ?_⟩
      · rw [iht]
        show (handle_canceled reason d s).translated_lines ++ _ = _
        rw [(handle_canceled_fields reason d s).1]
        simp
      · rw [ihr]
        show (handle_canceled reason d s).recognized_lines ++ _ = _
        rw [(handle_canceled_fields reason d s).2.1]
        simp
    | sessionStopped => simpa [handleEvent, handle_session_stopped] using ⟨iht, ihr⟩

theorem runEvents_done_eq (L : String) (events : List Event) (s : CollectorState) :
    (runEvents L events s).done = (s.done || events.any isTerminal) := by
  induction events generalizing s with
  | nil => simp [runEvents]
  | cons e es ih =>
    rw [runEvents_cons, ih]
    cases e with
    | recognizing => simp [handleEvent, isTerminal]
    | recognized r => simp [handleEvent, isTerminal, handle_recognized_done]
    | canceled reason d =>
      simp [handleEvent, isTerminal, (handle_canceled_fields reason d s).2.2.1]
    | sessionStopped => simp [handleEvent, isTerminal, handle_session_stopped]

theorem segmentsFor_map_recognized (L : String) (rs : List RecResult) :
    segmentsFor L (rs.map Event.recognized) = rs.filter (appendsFor L) := by
  induction rs with
  | nil => rfl
  | cons r rs ih =>
    rw [List.map_cons, segmentsFor_cons, ih]
    by_cases h : appendsFor L r = true <;> simp [h, List.filter_cons]

theorem segmentsFor_terminal (L : String) (t : Event) (ht : isTerminal t = true) :
    segmentsFor L [t] = [] := by
  cases t <;> simp [isTerminal] at ht ⊢ <;> rfl

theorem translate_wav_ok (env : Env) (isfile : String → Bool)
    (wav L : String) (src out : Option String) (events : List Event)
    (hk : truthy env.azure_speech_key = true)
    (hr : truthy env.azure_speech_region = true)
    (hf : isfile wav = true) :
    translate_wav env isfile wav L src out events
      = Except.ok (okResult env wav L src out events) := by
  unfold translate_wav okResult
  simp [hk, hr, hf]

theorem segmentsFor_append (L : String) (es1 es2 : List Event) :
    segmentsFor L (es1 ++ es2) = segmentsFor L es1 ++ segmentsFor L es2 := by
  simp [segmentsFor, List.filterMap_append]

/-! ## Concrete data for witnesses -/

/-- Leading part of the credentials error message. -/
def credsMsgPre : String := "Please set "

/-- Middle part of the credentials error message. -/
def credsMsgMid : String := " and "

/-- Trailing part of the credentials error message. -/
def credsMsgPost : String := " environment variables."

/-- An environment with neither credential variable set. -/
def emptyEnv : Env := { azure_speech_key := none, azure_speech_region := none }

/-- A sample credential key value. -/
def sampleKeyVal : String := "test-key"

/-- A sample region value. -/
def sampleRegionVal : String := "westus"

/-- An environment with both credential variables set. -/
def sampleEnv : Env :=
  { azure_speech_key := some sampleKeyVal, azure_speech_region := some sampleRegionVal }

/-- A filesystem-existence predicate under which every path exists. -/
def allFiles : String → Bool := fun _ => true

/-- A filesystem-existence predicate under which no path exists. -/
def noFiles : String → Bool := fun _ => false

/-- A sample input recording path. -/
def sampleWav : String := "audio.wav"

/-- A sample target language. -/
def sampleLang : String := "es"

/-- A sample output path. -/
def sampleOut : String := "out.txt"

/-- A sample first translation. -/
def holaStr : String := "Hola"

/-- A sample second translation. -/
def mundoStr : String := "Mundo"

/-- A sample first source text. -/
def srcHello : String := "hello"

/-- A sample second source text. -/
def srcWorld : String := "world"

/-- A sample error-details string. -/
def sampleDetail : String := "network failure"

/-- A finalized result translating `srcHello` to `holaStr`. -/
def sampleResult1 : RecResult :=
  { reason := ResultReason.translatedSpeech, text := some srcHello,
    translations := [(sampleLang, holaStr)] }

/-- A finalized result translating `srcWorld` to `mundoStr`. -/
def sampleResult2 : RecResult :=
  { reason := ResultReason.translatedSpeech, text := some srcWorld,
    translations := [(sampleLang, mundoStr)] }

/-- A sample event stream: two finalized results, then a normal stop. -/
def sampleEvents : List Event :=
  [Event.recognized sampleResult1, Event.recognized sampleResult2,
   Event.sessionStopped]

/-- The two sample finalized results. -/
def sampleFinals : List RecResult := [sampleResult1, sampleResult2]

/-! ## Claims -/

/-- C1: For every sequence of finalized recognition events for target
language `L`, the collector produces `translated_lines` equal to the
non-empty translations for `L` in arrival order and `recognized_lines`
equal to the source texts of exactly those events; a
recognized-but-untranslated event only emits a diagnostic line, and a
no-match event is a no-op. -/
theorem c1_collector_filters_and_orders (L : String) (rs : List RecResult) :
    ((runEvents L (rs.map Event.recognized) initialState).translated_lines
        = (rs.filter (appendsFor L)).map (tgtOf L)
      ∧ (runEvents L (rs.map Event.recognized) initialState).recognized_lines
        = (rs.filter (appendsFor L)).map srcOf)
    ∧ (∀ txt ts s,
        handle_recognized L (RecResult.mk ResultReason.recognizedSpeech txt ts) s
          = if txt.getD emptyStr ≠ emptyStr then
              { s with output := s.output ++ [srcOnlyLine (txt.getD emptyStr)] }
            else s)
    ∧ (∀ txt ts s,
        handle_recognized L (RecResult.mk ResultReason.noMatch txt ts) s = s) := by
  refine ⟨?_, ?_, ?_⟩
  · have h := runEvents_lines L (rs.map Event.recognized) initialState
    rw [segmentsFor_map_recognized] at h
    simpa [initialState] using h
  · intro txt ts s
    by_cases h4 : txt.getD emptyStr = emptyStr <;> simp [handle_recognized, h4]
  · intro txt ts s
    simp [handle_recognized]

/-- C2: whenever either credential environment variable is absent or empty,
`translate_wav` fails with the configuration `RuntimeError` — for every
`isfile` predicate and every event stream, i.e. before any file or network
access — and the message names both settings, in particular the missing
one(s). -/
theorem c2_missing_credentials (env : Env) (isfile : String → Bool)
    (wav L : String) (src out : Option String) (events : List Event)
    (h : truthy env.azure_speech_key = false ∨ truthy env.azure_speech_region = false) :
    translate_wav env isfile wav L src out events
        = Except.error (TranslateError.runtimeError credsMessage)
    ∧ (∃ a b, credsMessage = a ++ keyName ++ b)
    ∧ (∃ a b, credsMessage = a ++ regionName ++ b) := by
  refine ⟨?_, ?_, ?_⟩
  · unfold translate_wav
    rcases h with h | h <;> simp [h]
  · exact ⟨credsMsgPre, credsMsgMid ++ regionName ++ credsMsgPost, by decide⟩
  · exact ⟨credsMsgPre ++ keyName ++ credsMsgMid, credsMsgPost, by decide⟩

/-- Witness for C2 at a concrete input: no credentials set, every file
exists, and yet the call fails with the configuration error. -/
theorem c2_missing_credentials_witness :
    translate_wav emptyEnv allFiles sampleWav sampleLang none none []
        = Except.error (TranslateError.runtimeError credsMessage)
    ∧ (∃ a b, credsMessage = a ++ keyName ++ b)
    ∧ (∃ a b, credsMessage = a ++ regionName ++ b) :=
  c2_missing_credentials emptyEnv allFiles sampleWav sampleLang none none []
    (Or.inl (by decide))

/-- C3: with both credentials present, a path that is not an existing file
makes `translate_wav` fail with `FileNotFoundError`, uniformly in the
target/source languages and the event stream — i.e. before any session
configuration object is constructed. -/
theorem c3_missing_file (env : Env) (isfile : String → Bool)
    (wav L : String) (src out : Option String) (events : List Event)
    (hk : truthy env.azure_speech_key = true)
    (hr : truthy env.azure_speech_region = true)
    (hf : isfile wav = false) :
    translate_wav env isfile wav L src out events
      = Except.error (TranslateError.fileNotFoundError (wavNotFoundMessage wav)) := by
  unfold translate_wav
  simp [hk, hr, hf]

/-- Witness for C3 at a concrete input. -/
theorem c3_missing_file_witness :
    translate_wav sampleEnv noFiles sampleWav sampleLang none none []
      = Except.error (TranslateError.fileNotFoundError (wavNotFoundMessage sampleWav)) :=
  c3_missing_file sampleEnv noFiles sampleWav sampleLang none none []
    (by decide) (by decide) rfl

/-- C4: when an output path is supplied, the written file content is exactly
the newline-join of `translated_lines` (no trailing newline), and reading
the path back after the overwrite yields that content regardless of the
previous filesystem contents. -/
theorem c4_write_on_out (env : Env) (isfile : String → Bool)
    (wav L : String) (src : Option String) (p : String) (events : List Event)
    (hk : truthy env.azure_speech_key = true)
    (hr : truthy env.azure_speech_region = true)
    (hf : isfile wav = true)
    (hp : p ≠ emptyStr) :
    ∃ r : RunResult,
      translate_wav env isfile wav L src (some p) events = Except.ok r
      ∧ r.written = some (p, String.intercalate newlineStr r.collector.translated_lines)
      ∧ ∀ fs : FS, readFS (applyWritten r.written fs) p
          = some (String.intercalate newlineStr r.collector.translated_lines) := by
  have htr : truthy (some p) = true := by simp [truthy, hp]
  refine ⟨okResult env wav L src (some p) events,
    translate_wav_ok env isfile wav L src (some p) events hk hr hf, ?_, ?_⟩
  · simp [okResult, htr]
  · intro fs
    simp [okResult, htr, applyWritten, writeFileW, readFS, List.lookup]

/-- Witness for C4 at a concrete input: two finalized events translating to
`Hola` and `Mundo`, and the written content is exactly `Hola\nMundo`. -/
theorem c4_write_on_out_witness :
    (∃ r : RunResult,
      translate_wav sampleEnv allFiles sampleWav sampleLang none (some sampleOut)
          sampleEvents = Except.ok r
      ∧ r.written = some (sampleOut,
          String.intercalate newlineStr r.collector.translated_lines)
      ∧ ∀ fs : FS, readFS (applyWritten r.written fs) sampleOut
          = some (String.intercalate newlineStr r.collector.translated_lines))
    ∧ (runEvents sampleLang sampleEvents initialState).translated_lines
        = [holaStr, mundoStr]
    ∧ String.intercalate newlineStr [holaStr, mundoStr] = "Hola\nMundo" :=
  ⟨c4_write_on_out sampleEnv allFiles sampleWav sampleLang none sampleOut
      sampleEvents (by decide) (by decide) rfl (by decide),
    by decide, by decide⟩

/-- C5: when the output path is omitted (`None`), the run records no write,
and applying its (absent) write to any filesystem leaves the filesystem
unchanged: no file is created or modified. -/
theorem c5_no_out_no_write (env : Env) (isfile : String → Bool)
    (wav L : String) (src : Option String) (events : List Event)
    (hk : truthy env.azure_speech_key = true)
    (hr : truthy env.azure_speech_region = true)
    (hf : isfile wav = true) :
    ∃ r : RunResult,
      translate_wav env isfile wav L src none events = Except.ok r
      ∧ r.written = none
      ∧ ∀ fs : FS, applyWritten r.written fs = fs := by
  refine ⟨okResult env wav L src none events,
    translate_wav_ok env isfile wav L src none events hk hr hf, rfl, ?_⟩
  intro fs
  rfl

/-- Witness for C5 at a concrete input. -/
theorem c5_no_out_no_write_witness :
    ∃ r : RunResult,
      translate_wav sampleEnv allFiles sampleWav sampleLang none none
          sampleEvents = Except.ok r
      ∧ r.written = none
      ∧ ∀ fs : FS, applyWritten r.written fs = fs :=
  c5_no_out_no_write sampleEnv allFiles sampleWav sampleLang none sampleEvents
    (by decide) (by decide) rfl

/-- C6: once validation passes, the session configuration registers exactly
one target language, equal to the requested target; and when
`source_language` is omitted the auto-detect candidate list is the fixed
default set, which is non-empty. -/
theorem c6_session_config (env : Env) (isfile : String → Bool)
    (wav L : String) (src out : Option String) (events : List Event)
    (hk : truthy env.azure_speech_key = true)
    (hr : truthy env.azure_speech_region = true)
    (hf : isfile wav = true) :
    ∃ r : RunResult,
      translate_wav env isfile wav L src out events = Except.ok r
      ∧ r.config.target_languages = [L]
      ∧ (src = none →
          r.auto_langs = some default_auto_langs
          ∧ default_auto_langs ≠ ([] : List String)) := by
  refine ⟨okResult env wav L src out events,
    translate_wav_ok env isfile wav L src out events hk hr hf, rfl, ?_⟩
  intro hsrc
  subst hsrc
  exact ⟨rfl, by decide⟩

/-- Witness for C6 at a concrete input. -/
theorem c6_session_config_witness :
    ∃ r : RunResult,
      translate_wav sampleEnv allFiles sampleWav sampleLang none none
          sampleEvents = Except.ok r
      ∧ r.config.target_languages = [sampleLang]
      ∧ (none = (none : Option String) →
          r.auto_langs = some default_auto_langs
          ∧ default_auto_langs ≠ ([] : List String)) :=
  c6_session_config sampleEnv allFiles sampleWav sampleLang none none
    sampleEvents (by decide) (by decide) rfl

/-- C7: a stream of `N` appending finalized events followed by one terminal
event (cancellation or stop) yields exactly those `N` segments, in order,
and sets the completion flag that ends the wait loop. -/
theorem c7_terminal_bundle (L : String) (finals : List RecResult) (term : Event)
    (hf : ∀ r ∈ finals, appendsFor L r = true)
    (ht : isTerminal term = true) :
    (runEvents L (finals.map Event.recognized ++ [term]) initialState).translated_lines
        = finals.map (tgtOf L)
    ∧ (runEvents L (finals.map Event.recognized ++ [term]) initialState).recognized_lines
        = finals.map srcOf
    ∧ (runEvents L (finals.map Event.recognized ++ [term]) initialState).translated_lines.length
        = finals.length
    ∧ (runEvents L (finals.map Event.recognized ++ [term]) initialState).done = true := by
  have hseg : segmentsFor L (finals.map Event.recognized ++ [term]) = finals := by
    rw [segmentsFor_append, segmentsFor_map_recognized, segmentsFor_terminal L term ht,
      List.filter_eq_self.mpr hf, List.append_nil]
  have hl := runEvents_lines L (finals.map Event.recognized ++ [term]) initialState
  rw [hseg] at hl
  rcases hl with ⟨ht1, ht2⟩
  refine ⟨by simpa [initialState] using ht1, by simpa [initialState] using ht2, ?_, ?_⟩
  · rw [ht1]
    simp [initialState]
  · rw [runEvents_done_eq]
    simp [initialState, ht]

/-- Witness for C7: two appending events then a normal stop yield both
segments and a set completion flag. -/
theorem c7_terminal_bundle_witness :
    (runEvents sampleLang (sampleFinals.map Event.recognized ++ [Event.sessionStopped]) initialState).translated_lines
        = sampleFinals.map (tgtOf sampleLang)
    ∧ (runEvents sampleLang (sampleFinals.map Event.recognized ++ [Event.sessionStopped]) initialState).recognized_lines
        = sampleFinals.map srcOf
    ∧ (runEvents sampleLang (sampleFinals.map Event.recognized ++ [Event.sessionStopped]) initialState).translated_lines.length
        = sampleFinals.length
    ∧ (runEvents sampleLang (sampleFinals.map Event.recognized ++ [Event.sessionStopped]) initialState).done = true :=
  c7_terminal_bundle sampleLang sampleFinals Event.sessionStopped (by decide) rfl

/-- C8: an error-triggered cancellation after any prefix of events still
yields a normal `Except.ok` result (same type as a clean completion), the
completion flag is set, and the console output contains the cancellation
line and the error-details line. -/
theorem c8_error_cancel_returns_ok (env : Env) (isfile : String → Bool)
    (wav L : String) (src out : Option String) (es : List Event) (d : String)
    (hk : truthy env.azure_speech_key = true)
    (hr : truthy env.azure_speech_region = true)
    (hf : isfile wav = true) :
    ∃ r : RunResult,
      translate_wav env isfile wav L src out
          (es ++ [Event.canceled CancellationReason.error d]) = Except.ok r
      ∧ r.collector.done = true
      ∧ canceledLine CancellationReason.error ∈ r.collector.output
      ∧ errorDetailsLine d ∈ r.collector.output := by
  refine ⟨okResult env wav L src out (es ++ [Event.canceled CancellationReason.error d]),
    translate_wav_ok env isfile wav L src out
      (es ++ [Event.canceled CancellationReason.error d]) hk hr hf, ?_, ?_, ?_⟩
  · show (runEvents L (es ++ [Event.canceled CancellationReason.error d]) initialState).done = true
    rw [runEvents_done_eq]
    simp [isTerminal]
  · show canceledLine CancellationReason.error
      ∈ (runEvents L (es ++ [Event.canceled CancellationReason.error d]) initialState).output
    rw [runEvents_append]
    show canceledLine CancellationReason.error
      ∈ (handle_canceled CancellationReason.error d (runEvents L es initialState)).output
    rw [(handle_canceled_fields CancellationReason.error d (runEvents L es initialState)).2.2.2]
    simp
  · show errorDetailsLine d
      ∈ (runEvents L (es ++ [Event.canceled CancellationReason.error d]) initialState).output
    rw [runEvents_append]
    show errorDetailsLine d
      ∈ (handle_canceled CancellationReason.error d (runEvents L es initialState)).output
    rw [(handle_canceled_fields CancellationReason.error d (runEvents L es initialState)).2.2.2]
    simp

/-- Witness for C8 at a concrete input: one finalized event, then an
error cancellation. -/
theorem c8_error_cancel_returns_ok_witness :
    ∃ r : RunResult,
      translate_wav sampleEnv allFiles sampleWav sampleLang none none
          ([Event.recognized sampleResult1]
            ++ [Event.canceled CancellationReason.error sampleDetail]) = Except.ok r
      ∧ r.collector.done = true
      ∧ canceledLine CancellationReason.error ∈ r.collector.output
      ∧ errorDetailsLine sampleDetail ∈ r.collector.output :=
  c8_error_cancel_returns_ok sampleEnv allFiles sampleWav sampleLang none none
    [Event.recognized sampleResult1] sampleDetail (by decide) (by decide) rfl

/-- C9: after any prefix of any event stream, the two accumulators have
equal length and are the images of one common list of results — the i-th
recognized line and the i-th translated line come from the same event. -/
theorem c9_paired_accumulators (L : String) (events : List Event) (n : Nat) :
    (runEvents L (events.take n) initialState).translated_lines.length
      = (runEvents L (events.take n) initialState).recognized_lines.length
    ∧ ∃ rs : List RecResult,
        (runEvents L (events.take n) initialState).translated_lines
          = rs.map (tgtOf L)
        ∧ (runEvents L (events.take n) initialState).recognized_lines
          = rs.map srcOf := by
  rcases runEvents_lines L (events.take n) initialState with ⟨ht, hr⟩
  constructor
  · rw [ht, hr]
    simp [initialState]
  · refine ⟨segmentsFor L (events.take n), ?_, ?_⟩
    · rw [ht]
      simp [initialState]
    · rw [hr]
      simp [initialState]

/-- C10: the module entry guard `if name == "main":` evaluates an identifier
that is not bound at module top level, so running the module as a script
raises `NameError` in the guard and never reaches the comparison, hence
never calls `main()`. -/
theorem c10_entry_guard_raises_name_error :
    runModuleGuard = GuardOutcome.nameError guardIdent ∧ mainReachable = false := by
  constructor <;> decide

end TranslateWav
